import Mathlib

/-!
Verification of the Golden Valley meal-break compliance pipeline
(`gv_meal_break_law_compliance`).

The development shallowly embeds the core of the pipeline:

* `compute_shift_length` and `check_for_violation`
  (src/pipeline/src/processing/detect_break_violations.py),
* `build_violation_summary`
  (src/pipeline/src/processing/violation_summary_report.py),
* `create_violation_list` and `aggregate_employee_violations`
  (src/pipeline/src/processing/employee_level_violation.py),
* `compile_ytd_violation_summary`
  (src/pipeline/src/main_pipeline/compile_ytd.py),
* `compile_employee_ytd`
  (src/pipeline/src/main_pipeline/compile_employee_ytd.py).

Modelling conventions:

* A pandas DataFrame becomes a `List` of record structures; adding a column
  becomes extending the structure.
* Time-of-day values (parsed by `pd.to_datetime` with format `%H:%M:%S`)
  become `Int` seconds since midnight; `pd.Timedelta(hours=h)` becomes
  `h * 3600` seconds.  `lunch_start` / `lunch_end` may be `NaT` after
  cleaning, hence `Option Int`.
* `shift_length_minutes` (`.dt.total_seconds() / 60`) is a rational.
* Employee identifiers are opaque totally ordered keys (pandas `groupby`
  sorts them ascending); they are modelled as `Nat`.
* `violation_reason` stays a `String`, exactly the literals in the code.
* Fallible code is embedded in `Except String` / `Option`, the error value
  naming the Python exception class that is raised.
-/

/-- A cleaned timecard row as it reaches the rule engine: the columns of the
cleaned dataset after `convert_time_to_date_time` (times as seconds since
midnight; `lunch_start`/`lunch_end` are `none` when `NaT`). -/
structure ShiftRecord where
  employee_id : Nat
  date : String
  clock_in : Int
  clock_out : Int
  lunch_start : Option Int
  lunch_end : Option Int
  waiver_signed : Bool
deriving Repr, DecidableEq

/-- A `ShiftRecord` with the `shift_length_minutes` column added by
`compute_shift_length`. -/
structure LengthRecord extends ShiftRecord where
  shift_length_minutes : ℚ
deriving Repr, DecidableEq

/-- A `LengthRecord` with the three columns added by `check_for_violation`. -/
structure ClassifiedRecord extends LengthRecord where
  lunch_needed : Bool
  violation_reason : String
  violation_flag : Bool
deriving Repr, DecidableEq

/-- `compute_shift_length` (detect_break_violations.py lines 25-34):
`df["shift_length_minutes"] = (df["clock_out"] - df["clock_in"]).dt.total_seconds() / 60`.
The subtraction is total: no validation of `clock_out > clock_in` occurs and
no exception can be raised on any row. -/
def compute_shift_length (r : ShiftRecord) : LengthRecord :=
  { toShiftRecord := r
    shift_length_minutes := ((r.clock_out - r.clock_in : ℤ) : ℚ) / 60 }

/-- The pandas comparison `lunch_start >= t` on a possibly-`NaT` column:
a comparison against `NaT` is `False`. -/
def optGE (x : Option Int) (t : Int) : Bool :=
  match x with
  | some s => decide (t ≤ s)
  | none => false

/-- The pandas comparison `lunch_start > t` on a possibly-`NaT` column:
a comparison against `NaT` is `False`. -/
def optGT (x : Option Int) (t : Int) : Bool :=
  match x with
  | some s => decide (t < s)
  | none => false

/-- `df["lunch_needed"]` (detect_break_violations.py lines 53-56):
`(~waiver_signed & (shift_length_minutes >= 300)) | (waiver_signed & (shift_length_minutes > 360))`. -/
def lunch_needed_rule (r : LengthRecord) : Bool :=
  (!r.waiver_signed && decide ((300 : ℚ) ≤ r.shift_length_minutes)) ||
  (r.waiver_signed && decide ((360 : ℚ) < r.shift_length_minutes))

/-- Guard of the first overwrite (lines 62-65):
`lunch_needed & lunch_start.isna()`. -/
def guard_missed (r : LengthRecord) : Bool :=
  lunch_needed_rule r && r.lunch_start.isNone

/-- Guard of the second overwrite (lines 68-73):
`lunch_needed & ~waiver_signed & (lunch_start >= clock_in + 5h)`. -/
def guard_late_no_waiver (r : LengthRecord) : Bool :=
  lunch_needed_rule r && !r.waiver_signed && optGE r.lunch_start (r.clock_in + 5 * 3600)

/-- Guard of the third overwrite (lines 76-81):
`lunch_needed & waiver_signed & (lunch_start > clock_in + 6h)`. -/
def guard_late_waiver (r : LengthRecord) : Bool :=
  lunch_needed_rule r && r.waiver_signed && optGT r.lunch_start (r.clock_in + 6 * 3600)

/-- `check_for_violation` (detect_break_violations.py lines 37-86), one row.
The code initialises `violation_reason` to `"no_violation"` and then performs
three conditional overwrites via `df.loc[...] = ...` in source order; a later
overwrite wins when its guard fires.  Finally
`violation_flag = (violation_reason != "no_violation")`. -/
def check_for_violation (r : LengthRecord) : ClassifiedRecord :=
  let reason0 := "no_violation"
  let reason1 := if guard_missed r then "missed_lunch" else reason0
  let reason2 := if guard_late_no_waiver r then "late_lunch_no_waiver" else reason1
  let reason3 := if guard_late_waiver r then "late_lunch_waiver" else reason2
  { toLengthRecord := r
    lunch_needed := lunch_needed_rule r
    violation_reason := reason3
    violation_flag := decide (reason3 ≠ "no_violation") }

/-- The spec expresses the same classification as one exhaustive if/elif
match (spec.md section 4.1); this second definition follows the spec text and
is compared with `check_for_violation` in the refinement claim. -/
def classify_spec_match (r : LengthRecord) : ClassifiedRecord :=
  let reason :=
    if guard_missed r then "missed_lunch"
    else if guard_late_no_waiver r then "late_lunch_no_waiver"
    else if guard_late_waiver r then "late_lunch_waiver"
    else "no_violation"
  { toLengthRecord := r
    lunch_needed := lunch_needed_rule r
    violation_reason := reason
    violation_flag := decide (reason ≠ "no_violation") }

/-- The whole-batch transform: `check_for_violation` acts column-wise on the
frame, i.e. row-wise independently. -/
def check_for_violation_batch (df : List LengthRecord) : List ClassifiedRecord :=
  df.map check_for_violation

lemma guard_missed_not_late_no_waiver (r : LengthRecord) :
    (guard_missed r && guard_late_no_waiver r) = false := by
  unfold guard_missed guard_late_no_waiver optGE
  cases h : r.lunch_start <;> simp [h]

lemma guard_missed_not_late_waiver (r : LengthRecord) :
    (guard_missed r && guard_late_waiver r) = false := by
  unfold guard_missed guard_late_waiver optGT
  cases h : r.lunch_start <;> simp [h]

lemma guard_late_no_waiver_not_late_waiver (r : LengthRecord) :
    (guard_late_no_waiver r && guard_late_waiver r) = false := by
  unfold guard_late_no_waiver guard_late_waiver
  cases h : r.waiver_signed <;> simp [h]

lemma check_lunch_needed (r : LengthRecord) :
    (check_for_violation r).lunch_needed = lunch_needed_rule r := rfl

lemma check_for_violation_eq_match (r : LengthRecord) :
    check_for_violation r = classify_spec_match r := by
  have e12 := guard_missed_not_late_no_waiver r
  have e13 := guard_missed_not_late_waiver r
  have e23 := guard_late_no_waiver_not_late_waiver r
  unfold check_for_violation classify_spec_match
  cases h1 : guard_missed r <;> cases h2 : guard_late_no_waiver r <;>
    cases h3 : guard_late_waiver r <;> simp_all

/-- C3: the sequence of conditional overwrites (initialise to `no_violation`,
then overwrite with `missed_lunch`, `late_lunch_no_waiver`, `late_lunch_waiver`
under their guards) computes the same result as the single exhaustive if/elif
match of the spec, and the three violating guards are pairwise mutually
exclusive, so at most one overwrite fires and case order is immaterial. -/
theorem overwrites_refine_single_match (r : LengthRecord) :
    check_for_violation r = classify_spec_match r ∧
    (guard_missed r && guard_late_no_waiver r) = false ∧
    (guard_missed r && guard_late_waiver r) = false ∧
    (guard_late_no_waiver r && guard_late_waiver r) = false :=
  ⟨check_for_violation_eq_match r, guard_missed_not_late_no_waiver r,
   guard_missed_not_late_waiver r, guard_late_no_waiver_not_late_waiver r⟩

lemma violation_reason_mem (r : LengthRecord) :
    (check_for_violation r).violation_reason ∈
      ["no_violation", "missed_lunch", "late_lunch_no_waiver", "late_lunch_waiver"] := by
  unfold check_for_violation
  cases guard_missed r <;> cases guard_late_no_waiver r <;>
    cases guard_late_waiver r <;> simp

lemma violation_flag_iff (r : LengthRecord) :
    (check_for_violation r).violation_flag = true ↔
      (check_for_violation r).violation_reason ≠ "no_violation" := by
  unfold check_for_violation
  simp

/-- C4: every record output by the classification step has `violation_reason`
in the four-value enumeration, and `violation_flag` is true iff
`violation_reason` is not `no_violation`. -/
theorem violation_reason_enum_and_flag (r : LengthRecord) :
    (check_for_violation r).violation_reason ∈
      ["no_violation", "missed_lunch", "late_lunch_no_waiver", "late_lunch_waiver"] ∧
    ((check_for_violation r).violation_flag = true ↔
      (check_for_violation r).violation_reason ≠ "no_violation") :=
  ⟨violation_reason_mem r, violation_flag_iff r⟩

lemma lunch_needed_rule_iff (r : LengthRecord) :
    lunch_needed_rule r = true ↔
      (r.waiver_signed = false ∧ (300 : ℚ) ≤ r.shift_length_minutes) ∨
      (r.waiver_signed = true ∧ (360 : ℚ) < r.shift_length_minutes) := by
  unfold lunch_needed_rule
  cases h : r.waiver_signed <;> simp [h]

lemma reason_at_five_hour_mark (r : LengthRecord)
    (hw : r.waiver_signed = false)
    (hn : (check_for_violation r).lunch_needed = true)
    (hl : r.lunch_start = some (r.clock_in + 5 * 3600)) :
    (check_for_violation r).violation_reason = "late_lunch_no_waiver" := by
  rw [check_lunch_needed] at hn
  have h2 : guard_late_no_waiver r = true := by
    unfold guard_late_no_waiver optGE
    simp [hn, hw, hl]
  have h3 : guard_late_waiver r = false := by
    unfold guard_late_waiver
    simp [hw]
  unfold check_for_violation
  simp [h2, h3]

lemma reason_at_six_hour_mark (r : LengthRecord)
    (hw : r.waiver_signed = true)
    (hl : r.lunch_start = some (r.clock_in + 6 * 3600)) :
    (check_for_violation r).violation_flag = false := by
  have h1 : guard_missed r = false := by
    unfold guard_missed
    simp [hl]
  have h2 : guard_late_no_waiver r = false := by
    unfold guard_late_no_waiver
    simp [hw]
  have h3 : guard_late_waiver r = false := by
    unfold guard_late_waiver optGT
    simp [hl]
  unfold check_for_violation
  simp [h1, h2, h3]

/-- C1: `lunch_needed` holds iff (no waiver and length ≥ 300) or (waiver and
length > 360); at exactly 300 minutes without a waiver it is true, at exactly
360 minutes with a waiver it is false; a non-waived shift that needs lunch
with `lunch_start` exactly at `clock_in + 5h` is classified
`late_lunch_no_waiver` (inclusive ≥), while a waived shift whose lunch starts
exactly at `clock_in + 6h` is not a violation (strict >). -/
theorem lunch_needed_and_boundaries (r : LengthRecord) :
    ((check_for_violation r).lunch_needed = true ↔
      (r.waiver_signed = false ∧ (300 : ℚ) ≤ r.shift_length_minutes) ∨
      (r.waiver_signed = true ∧ (360 : ℚ) < r.shift_length_minutes)) ∧
    (r.waiver_signed = false → r.shift_length_minutes = 300 →
      (check_for_violation r).lunch_needed = true) ∧
    (r.waiver_signed = true → r.shift_length_minutes = 360 →
      (check_for_violation r).lunch_needed = false) ∧
    (r.waiver_signed = false → (check_for_violation r).lunch_needed = true →
      r.lunch_start = some (r.clock_in + 5 * 3600) →
      (check_for_violation r).violation_reason = "late_lunch_no_waiver") ∧
    (r.waiver_signed = true → r.lunch_start = some (r.clock_in + 6 * 3600) →
      (check_for_violation r).violation_flag = false) := by
  refine ⟨(check_lunch_needed r ▸ lunch_needed_rule_iff r), ?_, ?_,
    fun hw hn hl => reason_at_five_hour_mark r hw hn hl,
    fun hw hl => reason_at_six_hour_mark r hw hl⟩
  · intro hw hlen
    rw [check_lunch_needed, lunch_needed_rule_iff]
    exact Or.inl ⟨hw, by rw [hlen]⟩
  · intro hw hlen
    rw [check_lunch_needed]
    unfold lunch_needed_rule
    simp [hw, hlen]

/-- A concrete non-waived 300-minute shift with no lunch. -/
def wit_rec_a : LengthRecord :=
  { employee_id := 1, date := "2024-07-01", clock_in := 28800, clock_out := 46800,
    lunch_start := none, lunch_end := none, waiver_signed := false,
    shift_length_minutes := 300 }

/-- A concrete waived 360-minute shift. -/
def wit_rec_b : LengthRecord :=
  { employee_id := 2, date := "2024-07-01", clock_in := 28800, clock_out := 50400,
    lunch_start := none, lunch_end := none, waiver_signed := true,
    shift_length_minutes := 360 }

/-- A concrete non-waived 480-minute shift whose lunch starts exactly five
hours after clock-in. -/
def wit_rec_c : LengthRecord :=
  { employee_id := 3, date := "2024-07-01", clock_in := 28800, clock_out := 57600,
    lunch_start := some (28800 + 5 * 3600), lunch_end := some (28800 + 5 * 3600 + 1800),
    waiver_signed := false, shift_length_minutes := 480 }

/-- A concrete waived 480-minute shift whose lunch starts exactly six hours
after clock-in. -/
def wit_rec_d : LengthRecord :=
  { employee_id := 4, date := "2024-07-01", clock_in := 28800, clock_out := 57600,
    lunch_start := some (28800 + 6 * 3600), lunch_end := some (28800 + 6 * 3600 + 1800),
    waiver_signed := true, shift_length_minutes := 480 }

theorem lunch_needed_and_boundaries_witness :
    (check_for_violation wit_rec_a).lunch_needed = true ∧
    (check_for_violation wit_rec_b).lunch_needed = false ∧
    (check_for_violation wit_rec_c).violation_reason = "late_lunch_no_waiver" ∧
    (check_for_violation wit_rec_d).violation_flag = false :=
  ⟨(lunch_needed_and_boundaries wit_rec_a).2.1 rfl rfl,
   (lunch_needed_and_boundaries wit_rec_b).2.2.1 rfl rfl,
   (lunch_needed_and_boundaries wit_rec_c).2.2.2.1 rfl (by decide) rfl,
   (lunch_needed_and_boundaries wit_rec_d).2.2.2.2 rfl rfl⟩

/-- A shift whose clock-out (08:00) precedes its clock-in (09:00). -/
def cex_rec_backwards : ShiftRecord :=
  { employee_id := 5, date := "2024-07-02", clock_in := 32400, clock_out := 28800,
    lunch_start := none, lunch_end := none, waiver_signed := false }

/-- C2 counterexample: on a record whose `clock_out` precedes its `clock_in`,
`compute_shift_length` does not fail — there is no validation and no
`DataQualityError` anywhere in the code — it returns the record with the
negative value `shift_length_minutes = -60`. -/
theorem compute_shift_length_no_failure_cex :
    (compute_shift_length cex_rec_backwards).shift_length_minutes = -60 ∧
    (compute_shift_length cex_rec_backwards).toShiftRecord = cex_rec_backwards := by
  constructor
  · show ((cex_rec_backwards.clock_out - cex_rec_backwards.clock_in : ℤ) : ℚ) / 60 = -60
    norm_num [cex_rec_backwards]
  · rfl

/-- C2 amended: `compute_shift_length` is total and performs no validation:
for every record it returns `shift_length_minutes = (clock_out − clock_in)`
in minutes, which is zero or negative whenever `clock_out ≤ clock_in`
(no `DataQualityError` is raised; no such error class exists in the code). -/
theorem compute_shift_length_total_no_validation (r : ShiftRecord) :
    (compute_shift_length r).shift_length_minutes =
      ((r.clock_out - r.clock_in : ℤ) : ℚ) / 60 ∧
    (r.clock_out ≤ r.clock_in → (compute_shift_length r).shift_length_minutes ≤ 0) ∧
    (r.clock_in < r.clock_out → 0 < (compute_shift_length r).shift_length_minutes) ∧
    (compute_shift_length r).toShiftRecord = r := by
  refine ⟨rfl, ?_, ?_, rfl⟩
  · intro h
    show ((r.clock_out - r.clock_in : ℤ) : ℚ) / 60 ≤ 0
    apply div_nonpos_of_nonpos_of_nonneg
    · exact_mod_cast sub_nonpos.mpr h
    · norm_num
  · intro h
    show (0 : ℚ) < ((r.clock_out - r.clock_in : ℤ) : ℚ) / 60
    apply div_pos
    · exact_mod_cast sub_pos.mpr h
    · norm_num

/-- A normal shift, 08:00 to 13:05. -/
def wit_rec_e : ShiftRecord :=
  { employee_id := 6, date := "2024-07-02", clock_in := 28800, clock_out := 47100,
    lunch_start := none, lunch_end := none, waiver_signed := false }

theorem compute_shift_length_total_no_validation_witness :
    0 < (compute_shift_length wit_rec_e).shift_length_minutes ∧
    (compute_shift_length cex_rec_backwards).shift_length_minutes ≤ 0 :=
  ⟨(compute_shift_length_total_no_validation wit_rec_e).2.2.1 (by decide),
   (compute_shift_length_total_no_validation cex_rec_backwards).2.1 (by decide)⟩

/-- Round to the nearest integer, ties to even (the Python 3 rounding rule
used by `round`). -/
def round_half_to_even (q : ℚ) : ℤ :=
  if q - (⌊q⌋ : ℚ) < 1 / 2 then ⌊q⌋
  else if 1 / 2 < q - (⌊q⌋ : ℚ) then ⌊q⌋ + 1
  else if ⌊q⌋ % 2 = 0 then ⌊q⌋ else ⌊q⌋ + 1

/-- Python `round(x, 1)` over ℚ: round `10 * x` to the nearest integer and
divide by 10. -/
def round1 (q : ℚ) : ℚ := (round_half_to_even (10 * q) : ℚ) / 10

/-- One row of the monthly summary produced by `build_violation_summary`
(violation_summary_report.py lines 46-54). -/
structure MonthlySummary where
  month : String
  total_shifts : Nat
  violations : Nat
  pct_violations : ℚ
  missed_lunch : Nat
  late_lunch_no_waiver : Nat
  late_lunch_waiver : Nat
deriving Repr, DecidableEq

/-- `df["violation_reason"].value_counts().to_dict().get(reason, 0)`:
the number of rows carrying the given reason. -/
def count_reason (df : List ClassifiedRecord) (reason : String) : Nat :=
  (df.filter (fun r => r.violation_reason == reason)).length

/-- `build_violation_summary` (violation_summary_report.py lines 22-56).
`total_shifts = len(df)`;
`violations = (df["violation_reason"] != "no_violation").sum()`;
`pct_violations = round(violations / total_shifts * 100, 1)`;
`month = df["date"].iloc[0][:7]`.  On a zero-row frame the code performs no
explicit check: `violations / total_shifts` is a NaN under numpy and the
run then dies at `df["date"].iloc[0]`, which raises `IndexError`; the
embedding surfaces that exception as the error value. -/
def build_violation_summary (df : List ClassifiedRecord) :
    Except String MonthlySummary :=
  let total_shifts := df.length
  let violations := (df.filter (fun r => r.violation_reason != "no_violation")).length
  let pct_violations := round1 ((violations : ℚ) / (total_shifts : ℚ) * 100)
  match df.head? with
  | none => Except.error "IndexError"
  | some r0 =>
      Except.ok
        { month := r0.date.take 7
          total_shifts := total_shifts
          violations := violations
          pct_violations := pct_violations
          missed_lunch := count_reason df "missed_lunch"
          late_lunch_no_waiver := count_reason df "late_lunch_no_waiver"
          late_lunch_waiver := count_reason df "late_lunch_waiver" }

lemma build_violation_summary_cons (r : ClassifiedRecord) (t : List ClassifiedRecord) :
    build_violation_summary (r :: t) = Except.ok
      { month := r.date.take 7
        total_shifts := (r :: t).length
        violations := ((r :: t).filter (fun x => x.violation_reason != "no_violation")).length
        pct_violations := round1
          ((((r :: t).filter (fun x => x.violation_reason != "no_violation")).length : ℚ) /
            ((r :: t).length : ℚ) * 100)
        missed_lunch := count_reason (r :: t) "missed_lunch"
        late_lunch_no_waiver := count_reason (r :: t) "late_lunch_no_waiver"
        late_lunch_waiver := count_reason (r :: t) "late_lunch_waiver" } := rfl

/-- C5 counterexample: on a zero-row batch the summary builder does fail, but
with the `IndexError` raised by `df["date"].iloc[0]`, not with an
`EmptyBatchError` — no such error class exists anywhere in the code. -/
theorem build_violation_summary_empty_cex :
    build_violation_summary [] = Except.error "IndexError" ∧
    "IndexError" ≠ "EmptyBatchError" :=
  ⟨rfl, by decide⟩

/-- C5 amended: on a zero-row batch `build_violation_summary` fails — via the
`IndexError` from reading the first row date, not via a dedicated
`EmptyBatchError` — and for every non-empty batch it returns one row with
`total_shifts` = row count, `violations` = count of rows whose
`violation_reason` is not `no_violation`, and
`pct_violations = round(violations / total_shifts * 100, 1)`. -/
theorem build_violation_summary_spec (df : List ClassifiedRecord) (h : df ≠ []) :
    build_violation_summary [] = Except.error "IndexError" ∧
    build_violation_summary df = Except.ok
      { month := (df.head h).date.take 7
        total_shifts := df.length
        violations := (df.filter (fun x => x.violation_reason != "no_violation")).length
        pct_violations := round1
          (((df.filter (fun x => x.violation_reason != "no_violation")).length : ℚ) /
            (df.length : ℚ) * 100)
        missed_lunch := count_reason df "missed_lunch"
        late_lunch_no_waiver := count_reason df "late_lunch_no_waiver"
        late_lunch_waiver := count_reason df "late_lunch_waiver" } := by
  refine ⟨rfl, ?_⟩
  cases df with
  | nil => exact absurd rfl h
  | cons r t => exact build_violation_summary_cons r t

lemma round_half_to_even_intCast (n : ℤ) : round_half_to_even ((n : ℚ)) = n := by
  unfold round_half_to_even
  rw [Int.floor_intCast]
  norm_num

lemma round1_hundred : round1 100 = 100 := by
  have h : (10 : ℚ) * 100 = ((1000 : ℤ) : ℚ) := by norm_num
  unfold round1
  rw [h, round_half_to_even_intCast]
  norm_num

theorem build_violation_summary_spec_witness :
    build_violation_summary [check_for_violation wit_rec_a] = Except.ok
      { month := "2024-07", total_shifts := 1, violations := 1,
        pct_violations := 100, missed_lunch := 1, late_lunch_no_waiver := 0,
        late_lunch_waiver := 0 } := by
  rw [(build_violation_summary_spec [check_for_violation wit_rec_a] (by simp)).2]
  congr 1
  simp only [MonthlySummary.mk.injEq]
  have hfil : (List.filter (fun x => x.violation_reason != "no_violation")
      [check_for_violation wit_rec_a]).length = 1 := by decide
  refine ⟨by decide, by decide, by decide, ?_, by decide, by decide, by decide⟩
  rw [hfil]
  norm_num [round1_hundred]

lemma count_violations_partition (df : List ClassifiedRecord)
    (h : ∀ r ∈ df, r.violation_reason ∈
      ["no_violation", "missed_lunch", "late_lunch_no_waiver", "late_lunch_waiver"]) :
    (df.filter (fun r => r.violation_reason != "no_violation")).length =
      count_reason df "missed_lunch" + count_reason df "late_lunch_no_waiver" +
        count_reason df "late_lunch_waiver" := by
  induction df with
  | nil => simp [count_reason]
  | cons r t ih =>
    have hr := h r (List.mem_cons_self r t)
    have iht := ih (fun x hx => h x (List.mem_cons_of_mem r hx))
    unfold count_reason at iht ⊢
    simp only [List.mem_cons, List.not_mem_nil, or_false] at hr
    rcases hr with h0 | h0 | h0 | h0 <;>
      simp [List.filter_cons, h0, iht] <;> omega

/-- C10: for every non-empty classified batch whose `violation_reason` values
lie in the four-value enumeration, the summary row satisfies
`missed_lunch + late_lunch_no_waiver + late_lunch_waiver = violations`:
the per-reason breakdown partitions the violation count. -/
theorem breakdown_partitions_violations (df : List ClassifiedRecord) (h : df ≠ [])
    (henum : ∀ r ∈ df, r.violation_reason ∈
      ["no_violation", "missed_lunch", "late_lunch_no_waiver", "late_lunch_waiver"]) :
    ∀ s, build_violation_summary df = Except.ok s →
      s.missed_lunch + s.late_lunch_no_waiver + s.late_lunch_waiver = s.violations := by
  intro s hs
  cases df with
  | nil => exact absurd rfl h
  | cons r t =>
    have h3 := Except.ok.inj ((build_violation_summary_cons r t).symm.trans hs)
    rw [← h3]
    exact (count_violations_partition (r :: t) henum).symm

/-- The summary row built from the single-row batch used as witness input. -/
def wit_summary : MonthlySummary :=
  { month := "2024-07", total_shifts := 1, violations := 1, pct_violations := 100,
    missed_lunch := 1, late_lunch_no_waiver := 0, late_lunch_waiver := 0 }

lemma build_summary_wit_eval :
    build_violation_summary [check_for_violation wit_rec_a] = Except.ok wit_summary := by
  rw [build_violation_summary_cons]
  unfold wit_summary
  congr 1
  simp only [MonthlySummary.mk.injEq]
  have hfil : (List.filter (fun x => x.violation_reason != "no_violation")
      [check_for_violation wit_rec_a]).length = 1 := by decide
  refine ⟨by decide, by decide, by decide, ?_, by decide, by decide, by decide⟩
  rw [hfil]
  norm_num [round1_hundred]

theorem breakdown_partitions_violations_witness :
    wit_summary.missed_lunch + wit_summary.late_lunch_no_waiver +
      wit_summary.late_lunch_waiver = wit_summary.violations :=
  breakdown_partitions_violations [check_for_violation wit_rec_a] (by simp)
    (by intro r hr; rw [List.mem_singleton] at hr; subst hr; decide)
    wit_summary build_summary_wit_eval

/-- One row of the aggregated employee-level report
(employee_level_violation.py lines 40-56). -/
structure EmployeeAgg where
  employee_id : Nat
  missed_lunch : Nat
  late_lunch_no_waiver : Nat
  late_lunch_waiver : Nat
  total_violations : Nat
deriving Repr, DecidableEq

/-- The distinct group keys of a pandas `groupby`, in ascending key order
(`groupby` sorts its keys by default). -/
def sorted_unique_ids (ids : List Nat) : List Nat :=
  List.insertionSort (· ≤ ·) ids.dedup

/-- `df.groupby(["employee_id", "violation_reason"]).size()` at one cell:
the number of rows of the given employee carrying the given reason. -/
def count_emp_reason (df : List ClassifiedRecord) (e : Nat) (reason : String) : Nat :=
  (df.filter (fun r => r.employee_id == e && r.violation_reason == reason)).length

/-- `create_violation_list` (employee_level_violation.py lines 63-82):
`df[df["violation_flag"] == True]`. -/
def create_violation_list (df : List ClassifiedRecord) : List ClassifiedRecord :=
  df.filter (fun r => r.violation_flag)

/-- `aggregate_employee_violations` (employee_level_violation.py lines 23-59):
group by (employee_id, violation_reason), count, unstack with `fill_value=0`,
force the three known reason columns to exist, and add
`total_violations` = the sum of those three columns. -/
def aggregate_employee_violations (df : List ClassifiedRecord) : List EmployeeAgg :=
  (sorted_unique_ids (df.map (fun r => r.employee_id))).map (fun e =>
    { employee_id := e
      missed_lunch := count_emp_reason df e "missed_lunch"
      late_lunch_no_waiver := count_emp_reason df e "late_lunch_no_waiver"
      late_lunch_waiver := count_emp_reason df e "late_lunch_waiver"
      total_violations := count_emp_reason df e "missed_lunch" +
        count_emp_reason df e "late_lunch_no_waiver" +
        count_emp_reason df e "late_lunch_waiver" })

lemma mem_sorted_unique_ids (ids : List Nat) (e : Nat) :
    e ∈ sorted_unique_ids ids ↔ e ∈ ids := by
  unfold sorted_unique_ids
  rw [(List.perm_insertionSort _ _).mem_iff, List.mem_dedup]

lemma nodup_sorted_unique_ids (ids : List Nat) : (sorted_unique_ids ids).Nodup :=
  (List.perm_insertionSort _ _).nodup_iff.mpr (List.nodup_dedup ids)

lemma aggregate_ids (df : List ClassifiedRecord) :
    (aggregate_employee_violations df).map (fun r => r.employee_id) =
      sorted_unique_ids (df.map (fun r => r.employee_id)) := by
  unfold aggregate_employee_violations
  rw [List.map_map]
  exact List.map_id _

/-- C6: the aggregated employee report has exactly one row per distinct
employee_id present in the detailed violation rows (no duplicates, no row for
an absent employee), every row carries all three per-reason columns — each
equal to the count of that employee's rows with that reason, hence 0 when the
reason is absent that month — and satisfies
`missed_lunch + late_lunch_no_waiver + late_lunch_waiver = total_violations`. -/
theorem aggregate_one_row_per_employee (df : List ClassifiedRecord) :
    ((aggregate_employee_violations df).map (fun r => r.employee_id)).Nodup ∧
    (∀ e : Nat, e ∈ (aggregate_employee_violations df).map (fun r => r.employee_id) ↔
      e ∈ df.map (fun r => r.employee_id)) ∧
    (∀ row ∈ aggregate_employee_violations df,
      row.missed_lunch = count_emp_reason df row.employee_id "missed_lunch" ∧
      row.late_lunch_no_waiver = count_emp_reason df row.employee_id "late_lunch_no_waiver" ∧
      row.late_lunch_waiver = count_emp_reason df row.employee_id "late_lunch_waiver" ∧
      row.missed_lunch + row.late_lunch_no_waiver + row.late_lunch_waiver =
        row.total_violations) := by
  refine ⟨?_, ?_, ?_⟩
  · rw [aggregate_ids]
    exact nodup_sorted_unique_ids _
  · intro e
    rw [aggregate_ids]
    exact mem_sorted_unique_ids _ e
  · intro row hrow
    obtain ⟨e, _, rfl⟩ := List.mem_map.mp hrow
    exact ⟨rfl, rfl, rfl, rfl⟩

/-- The single aggregated row produced from the witness batch. -/
def wit_agg_row : EmployeeAgg :=
  { employee_id := 1, missed_lunch := 1, late_lunch_no_waiver := 0,
    late_lunch_waiver := 0, total_violations := 1 }

theorem aggregate_one_row_per_employee_witness :
    ((aggregate_employee_violations [check_for_violation wit_rec_a]).map
        (fun r => r.employee_id)).Nodup ∧
    ((1 : Nat) ∈ (aggregate_employee_violations [check_for_violation wit_rec_a]).map
        (fun r => r.employee_id)) ∧
    wit_agg_row.missed_lunch + wit_agg_row.late_lunch_no_waiver +
        wit_agg_row.late_lunch_waiver = wit_agg_row.total_violations :=
  ⟨(aggregate_one_row_per_employee [check_for_violation wit_rec_a]).1,
   ((aggregate_one_row_per_employee [check_for_violation wit_rec_a]).2.1 1).mpr
     (by decide),
   ((aggregate_one_row_per_employee [check_for_violation wit_rec_a]).2.2 wit_agg_row
     (by decide)).2.2.2⟩

/-- `compile_ytd_violation_summary` (compile_ytd.py lines 30-58).  The code
reads every file of the monthly-report folder in `os.listdir` discovery
order, returns `None` when none were found, and otherwise concatenates the
tables with `pd.concat(..., ignore_index=True)`.  The `report_year` argument
is accepted but never read: no filtering by year happens anywhere in the
function. -/
def compile_ytd_violation_summary (report_year : String)
    (discovered : List (List MonthlySummary)) : Option (List MonthlySummary) :=
  if discovered.isEmpty then none
  else some discovered.flatten

/-- A monthly summary row labelled with year 2023. -/
def cex_summary_2023 : MonthlySummary :=
  { month := "2023-01", total_shifts := 10, violations := 2, pct_violations := 20,
    missed_lunch := 2, late_lunch_no_waiver := 0, late_lunch_waiver := 0 }

/-- C9 counterexample: compiling for target year 2024 over a discovered
folder that holds a 2023 monthly summary, the 2023 row is not excluded: the
`report_year` parameter is never read and the function performs no filtering
by year. -/
theorem compile_ytd_ignores_year_cex :
    compile_ytd_violation_summary "2024" [[cex_summary_2023]] =
      some [cex_summary_2023] ∧
    cex_summary_2023.month.take 4 = "2023" ∧ "2023" ≠ "2024" :=
  ⟨rfl, rfl, by decide⟩

/-- C9 amended: the YTD compile concatenates every discovered monthly summary
table in discovery order, with no deduplication and no re-ordering — and with
no filtering by year: the result does not depend on the `report_year`
argument at all (year scoping can only come from which folder the excluded
I/O layer scans).  When each discovered artifact is a one-row monthly
summary, the output has one row per discovered artifact. -/
theorem compile_ytd_concats_discovered (report_year alt_year : String)
    (discovered : List (List MonthlySummary)) (h : discovered ≠ []) :
    compile_ytd_violation_summary report_year discovered = some discovered.flatten ∧
    compile_ytd_violation_summary alt_year discovered =
      compile_ytd_violation_summary report_year discovered ∧
    ((∀ t ∈ discovered, t.length = 1) →
      discovered.flatten.length = discovered.length) := by
  refine ⟨?_, rfl, ?_⟩
  · cases discovered with
    | nil => exact absurd rfl h
    | cons t ts => rfl
  · intro hall
    clear h
    induction discovered with
    | nil => simp
    | cons t ts ih =>
      have h1 := hall t (List.mem_cons_self t ts)
      have h2 := ih (fun x hx => hall x (List.mem_cons_of_mem t hx))
      simp only [List.flatten_cons, List.length_append, List.length_cons, h1, h2]
      omega

theorem compile_ytd_concats_discovered_witness :
    compile_ytd_violation_summary "2024" [[wit_summary], [cex_summary_2023]] =
      some [wit_summary, cex_summary_2023] ∧
    ([[wit_summary], [cex_summary_2023]] : List (List MonthlySummary)).flatten.length = 2 := by
  have h := compile_ytd_concats_discovered "2024" "2025"
    [[wit_summary], [cex_summary_2023]] (by simp)
  exact ⟨h.1, h.2.2 (by simp)⟩

/-- `full_df.groupby("employee_id").sum(numeric_only=True).reset_index()`
(compile_employee_ytd.py line 74): one row per distinct employee_id, keys in
ascending order (the `groupby` default), each numeric column — including
`total_violations` — summed over that employee's rows. -/
def group_sum_employee (rows : List EmployeeAgg) : List EmployeeAgg :=
  (sorted_unique_ids (rows.map (fun r => r.employee_id))).map (fun e =>
    { employee_id := e
      missed_lunch := ((rows.filter (fun r => r.employee_id == e)).map
        (fun r => r.missed_lunch)).sum
      late_lunch_no_waiver := ((rows.filter (fun r => r.employee_id == e)).map
        (fun r => r.late_lunch_no_waiver)).sum
      late_lunch_waiver := ((rows.filter (fun r => r.employee_id == e)).map
        (fun r => r.late_lunch_waiver)).sum
      total_violations := ((rows.filter (fun r => r.employee_id == e)).map
        (fun r => r.total_violations)).sum })

/-- `ytd_df.sort_values(by="total_violations", ascending=False, inplace=True)`
(compile_employee_ytd.py line 75) with the default `kind` (quicksort): pandas
`nargsort` computes an ascending argsort of the column and then reverses the
whole indexer.  On the small arrays at issue numpy introsort degenerates to
insertion sort, which leaves ties in pre-sort order, so the reversal places
each tie group in reverse of its pre-sort order; the default sort is in any
case not guaranteed stable. -/
def sort_desc_total (rows : List EmployeeAgg) : List EmployeeAgg :=
  (List.insertionSort (fun a b => a.total_violations ≤ b.total_violations) rows).reverse

/-- `compile_employee_ytd` (compile_employee_ytd.py lines 36-80): given the
monthly aggregated tables discovered in the aggregated-reports folder, in
discovery order, return None when there are none, else concatenate them,
group by employee_id summing all numeric columns, and sort descending by
total_violations. -/
def compile_employee_ytd (months : List (List EmployeeAgg)) :
    Option (List EmployeeAgg) :=
  if months.isEmpty then none
  else some (sort_desc_total (group_sum_employee months.flatten))

lemma sort_desc_total_perm (l : List EmployeeAgg) : (sort_desc_total l).Perm l :=
  (List.reverse_perm _).trans (List.perm_insertionSort _ _)

lemma group_sum_ids (rows : List EmployeeAgg) :
    (group_sum_employee rows).map (fun r => r.employee_id) =
      sorted_unique_ids (rows.map (fun r => r.employee_id)) := by
  unfold group_sum_employee
  rw [List.map_map]
  exact List.map_id _

lemma sort_desc_total_sorted (l : List EmployeeAgg) :
    (sort_desc_total l).Sorted (fun a b => b.total_violations ≤ a.total_violations) := by
  haveI h1 : IsTotal EmployeeAgg (fun a b => a.total_violations ≤ b.total_violations) :=
    ⟨fun a b => Nat.le_total _ _⟩
  haveI h2 : IsTrans EmployeeAgg (fun a b => a.total_violations ≤ b.total_violations) :=
    ⟨fun a b c hab hbc => Nat.le_trans hab hbc⟩
  unfold sort_desc_total
  rw [List.Sorted, List.pairwise_reverse]
  exact List.sorted_insertionSort _ _

def cex_agg_1 : EmployeeAgg :=
  { employee_id := 1, missed_lunch := 3, late_lunch_no_waiver := 0,
    late_lunch_waiver := 0, total_violations := 3 }

def cex_agg_2 : EmployeeAgg :=
  { employee_id := 2, missed_lunch := 0, late_lunch_no_waiver := 3,
    late_lunch_waiver := 0, total_violations := 3 }

/-- C7 counterexample: two employees with equal YTD totals.  Employee 1
precedes employee 2 both in the concatenated input and in the grouped
(employee_id-ascending) table, yet the compiled output lists employee 2
first: the descending sort reverses each tie group instead of preserving the
original relative order, so the stable-tie part of the claim fails. -/
theorem compile_employee_ytd_tie_cex :
    ([[cex_agg_1, cex_agg_2]] : List (List EmployeeAgg)).flatten.map
      (fun r => r.employee_id) = [1, 2] ∧
    (group_sum_employee ([[cex_agg_1, cex_agg_2]] :
      List (List EmployeeAgg)).flatten).map (fun r => r.employee_id) = [1, 2] ∧
    cex_agg_1.total_violations = cex_agg_2.total_violations ∧
    compile_employee_ytd [[cex_agg_1, cex_agg_2]] = some [cex_agg_2, cex_agg_1] :=
  ⟨rfl, by decide, rfl, by decide⟩

/-- C7 amended: for every non-empty collection of monthly EmployeeAggregate
tables the compile returns the grouped-and-sorted table: exactly one row per
distinct employee_id present in any input month (no duplicate ids, id present
iff it occurs in some month), each numeric violation column equal to the
arithmetic sum of that employee's values across all input months, and the
rows sorted in descending order of total_violations.  Tie groups, however,
appear in reverse of the grouped (employee_id-ascending) order — the pandas
default sort does not preserve the original relative order of ties (see the
counterexample). -/
theorem compile_employee_ytd_spec (months : List (List EmployeeAgg))
    (h : months ≠ []) :
    compile_employee_ytd months =
      some (sort_desc_total (group_sum_employee months.flatten)) ∧
    ((sort_desc_total (group_sum_employee months.flatten)).map
        (fun r => r.employee_id)).Nodup ∧
    (∀ e : Nat,
      e ∈ (sort_desc_total (group_sum_employee months.flatten)).map
        (fun r => r.employee_id) ↔
      e ∈ months.flatten.map (fun r => r.employee_id)) ∧
    (∀ row ∈ sort_desc_total (group_sum_employee months.flatten),
      row.missed_lunch = ((months.flatten.filter
          (fun r => r.employee_id == row.employee_id)).map
          (fun r => r.missed_lunch)).sum ∧
      row.late_lunch_no_waiver = ((months.flatten.filter
          (fun r => r.employee_id == row.employee_id)).map
          (fun r => r.late_lunch_no_waiver)).sum ∧
      row.late_lunch_waiver = ((months.flatten.filter
          (fun r => r.employee_id == row.employee_id)).map
          (fun r => r.late_lunch_waiver)).sum ∧
      row.total_violations = ((months.flatten.filter
          (fun r => r.employee_id == row.employee_id)).map
          (fun r => r.total_violations)).sum) ∧
    (sort_desc_total (group_sum_employee months.flatten)).Sorted
      (fun a b => b.total_violations ≤ a.total_violations) := by
  have hperm : ((sort_desc_total (group_sum_employee months.flatten)).map
      (fun r => r.employee_id)).Perm
      (sorted_unique_ids (months.flatten.map (fun r => r.employee_id))) := by
    rw [← group_sum_ids]
    exact (sort_desc_total_perm _).map _
  refine ⟨?_, ?_, ?_, ?_, sort_desc_total_sorted _⟩
  · cases months with
    | nil => exact absurd rfl h
    | cons t ts => rfl
  · exact hperm.nodup_iff.mpr (nodup_sorted_unique_ids _)
  · intro e
    rw [hperm.mem_iff, mem_sorted_unique_ids]
  · intro row hrow
    have hrow2 : row ∈ group_sum_employee months.flatten :=
      (sort_desc_total_perm _).mem_iff.mp hrow
    obtain ⟨e, _, rfl⟩ := List.mem_map.mp hrow2
    exact ⟨rfl, rfl, rfl, rfl⟩

/-- Month A of spec example C: employee 1 has 2 violations, employee 2 has 1. -/
def wit_month_a : List EmployeeAgg :=
  [{ employee_id := 1, missed_lunch := 2, late_lunch_no_waiver := 0,
     late_lunch_waiver := 0, total_violations := 2 },
   { employee_id := 2, missed_lunch := 1, late_lunch_no_waiver := 0,
     late_lunch_waiver := 0, total_violations := 1 }]

/-- Month B of spec example C: employee 1 has 1 violation, employee 2 has 3. -/
def wit_month_b : List EmployeeAgg :=
  [{ employee_id := 1, missed_lunch := 0, late_lunch_no_waiver := 1,
     late_lunch_waiver := 0, total_violations := 1 },
   { employee_id := 2, missed_lunch := 3, late_lunch_no_waiver := 0,
     late_lunch_waiver := 0, total_violations := 3 }]

theorem compile_employee_ytd_spec_witness :
    compile_employee_ytd [wit_month_a, wit_month_b] =
      some (sort_desc_total (group_sum_employee
        ([wit_month_a, wit_month_b] : List (List EmployeeAgg)).flatten)) ∧
    sort_desc_total (group_sum_employee
        ([wit_month_a, wit_month_b] : List (List EmployeeAgg)).flatten) =
      [{ employee_id := 2, missed_lunch := 4, late_lunch_no_waiver := 0,
         late_lunch_waiver := 0, total_violations := 4 },
       { employee_id := 1, missed_lunch := 2, late_lunch_no_waiver := 1,
         late_lunch_waiver := 0, total_violations := 3 }] ∧
    (sort_desc_total (group_sum_employee
        ([wit_month_a, wit_month_b] : List (List EmployeeAgg)).flatten)).Sorted
      (fun a b => b.total_violations ≤ a.total_violations) :=
  ⟨(compile_employee_ytd_spec [wit_month_a, wit_month_b] (by simp)).1,
   by decide,
   (compile_employee_ytd_spec [wit_month_a, wit_month_b] (by simp)).2.2.2.2⟩

/-- The filesystem state touched by `compile_ytd_violation_summary`: it scans
the folder `report/monthly_violation_report` and writes
`ytd_report_compiled.csv` under `report/yearly_report` — a different folder,
so a run never alters its own input set. -/
structure ReportStore where
  monthly_violation_report : List (List MonthlySummary)
  yearly_report : Option (List MonthlySummary)
deriving Repr, DecidableEq

/-- One invocation of `compile_ytd_violation_summary` as a transformation of
the store: read every monthly artifact, and unless none were discovered
(in which case the function returns None before reaching `to_csv` and writes
nothing, compile_ytd.py lines 49-55), overwrite the yearly artifact with the
concatenated table. -/
def run_compile_ytd (report_year : String) (s : ReportStore) : ReportStore :=
  match compile_ytd_violation_summary report_year s.monthly_violation_report with
  | none => s
  | some t => { s with yearly_report := some t }

/-- The filesystem state touched by `compile_employee_ytd`: it scans
`report/employee_level_violation_report/aggregated` (only files with the
aggregated-report suffix) and writes its output under
`report/yearly_report/employee_ytd` — a different folder, so a run never
alters its own input set. -/
structure EmployeeReportStore where
  aggregated : List (List EmployeeAgg)
  employee_ytd : Option (List EmployeeAgg)
deriving Repr, DecidableEq

/-- One invocation of `compile_employee_ytd` as a transformation of the
store: read every monthly aggregated artifact, and unless none were
discovered (the function returns None before writing,
compile_employee_ytd.py lines 56-58), overwrite the employee-YTD artifact. -/
def run_compile_employee_ytd (s : EmployeeReportStore) : EmployeeReportStore :=
  match compile_employee_ytd s.aggregated with
  | none => s
  | some t => { s with employee_ytd := some t }

/-- C8: both YTD compiles are idempotent: a run reads only the monthly input
folder and overwrites only its own output artifact, which lives in a
different folder, so running the compile a second time against the unchanged
inputs reproduces an identical filesystem state. -/
theorem ytd_compiles_idempotent (report_year : String) (s : ReportStore)
    (es : EmployeeReportStore) :
    run_compile_ytd report_year (run_compile_ytd report_year s) =
      run_compile_ytd report_year s ∧
    run_compile_employee_ytd (run_compile_employee_ytd es) =
      run_compile_employee_ytd es := by
  constructor
  · unfold run_compile_ytd
    cases h : compile_ytd_violation_summary report_year
      s.monthly_violation_report with
    | none => simp [h]
    | some t => simp [h]
  · unfold run_compile_employee_ytd
    cases h : compile_employee_ytd es.aggregated with
    | none => simp [h]
    | some t => simp [h]
